import Mathlib

/-!
Verification of the phase-orchestration and streaming-extraction core of the
Vox-Code generation pipeline.

The shallow embedding below translates the Python sources
`src/aus/pipeline/router.py` and `src/aus/pipeline/orchestrator.py` into
executable Lean definitions.  The modules `aus/models.py` and
`aus/generators/parser.py` are not part of the provided sources (only their
callers are); the corresponding definitions are modelled from the
specification and are marked `Modelled from the spec:` in their doc comments.

Python strings are embedded as Lean `String` (a structure over `List Char`);
all string scanning is done with hand-rolled structurally recursive helpers
so every definition evaluates by kernel reduction.
-/

namespace VoxCode

/-! ## Character and string helpers (embedding of the Python str operations used) -/

/-- Is `pat` a prefix of `l`? (embedding of Python `str.startswith` on char lists). -/
def isPrefixChars : List Char → List Char → Bool
| [], _ => true
| _ :: _, [] => false
| a :: as, b :: bs => a == b && isPrefixChars as bs

/-- Does `l` contain `pat` as a contiguous substring? (Python `pat in s`). -/
def hasSubstrChars : List Char → List Char → Bool
| pat, [] => pat.isEmpty
| pat, c :: cs => isPrefixChars pat (c :: cs) || hasSubstrChars pat cs

/-- Python `pat in s` for strings. -/
def hasSubstr (s pat : String) : Bool := hasSubstrChars pat.data s.data

/-- Drop chars satisfying `p` from both ends (core of Python `str.strip`). -/
def trimCharsBy (p : Char → Bool) (l : List Char) : List Char :=
  ((l.dropWhile p).reverse.dropWhile p).reverse

/-- Python `str.strip()` (whitespace strip). -/
def pyStrip (s : String) : String := ⟨trimCharsBy Char.isWhitespace s.data⟩

/-- Python `str.strip(chars)`: strips any char of the set `cs` from both ends. -/
def pyStripSet (cs : List Char) (s : String) : String :=
  ⟨trimCharsBy (fun c => cs.contains c) s.data⟩

/-- Length of a string in characters (Python `len`). -/
def strLen (s : String) : Nat := s.data.length

/-- Python slice `s[:n]`. -/
def strTake (s : String) (n : Nat) : String := ⟨s.data.take n⟩

/-- Split a char list at every occurrence of `sep` (Python `str.split(sep)`),
with an explicit fuel argument so the definition is structurally recursive;
each step consumes at least one character, so fuel `l.length` suffices. -/
def splitOnAuxC (sep : List Char) : Nat → List Char → List Char → List (List Char)
| 0, l, acc => [acc.reverse ++ l]
| fuel + 1, l, acc =>
  match l with
  | [] => [acc.reverse]
  | c :: cs =>
    if isPrefixChars sep l && !sep.isEmpty then
      acc.reverse :: splitOnAuxC sep fuel (l.drop sep.length) []
    else
      splitOnAuxC sep fuel cs (c :: acc)

/-- Python `s.split(sep)` for a non-empty separator. -/
def splitOnStr (sep s : String) : List String :=
  (splitOnAuxC sep.data s.data.length s.data []).map (fun cs => ⟨cs⟩)

/-- Split a char list on a single character (used for `content.split("\n")`). -/
def splitOnChar (sep : Char) : List Char → List (List Char)
| [] => [[]]
| c :: cs =>
  match splitOnChar sep cs with
  | [] => [[]]
  | g :: gs => if c == sep then [] :: g :: gs else (c :: g) :: gs

/-- Python `"sep".join(parts)` analogue used for error joining. -/
def joinSep (sep : String) : List String → String
| [] => ""
| [x] => x
| x :: xs => x ++ sep ++ joinSep sep xs

/-- Concatenation of a list of strings (streamed fragments into one buffer). -/
def strConcat (l : List String) : String := l.foldl (fun a b => a ++ b) ""

/-- Does `s` end with `suf`? (Python `str.endswith`). -/
def strEndsWith (s suf : String) : Bool :=
  isPrefixChars suf.data.reverse s.data.reverse

/-- The backquote character (written via its code point). -/
def backquoteChar : Char := Char.ofNat 96

/-! ## Data model

Modelled from the spec: `aus/models.py` is not among the provided sources;
the shapes below follow spec section 3 (DATA MODEL) and the field accesses
visible in `orchestrator.py`.  Wall-clock duration fields and the opaque
`output` payload of a phase record are omitted: no claim concerns them and
real time is not statable in the embedding. -/

/-- Pipeline phase enumeration (spec section 3). -/
inductive Phase
| analyze | spec | plan | generate | validate | iterate
deriving DecidableEq, Repr

/-- Target stack enumeration; values evidenced by `Stack.REACT_FASTAPI`,
`Stack.REACT_ONLY`, `Stack.FASTAPI_ONLY` in `orchestrator.py`. -/
inductive Stack
| reactFastapi | reactOnly | fastapiOnly
deriving DecidableEq, Repr

/-- Complexity tier; values evidenced by the ANALYZE prompt
`"simple|standard|complex"`. -/
inductive Complexity
| simple | standard | complex
deriving DecidableEq, Repr

/-- Embedding of the Python `Stack(...)` enum constructor: `none` models the
`ValueError` raised on an unknown value. -/
def stackOfString : String → Option Stack
| "react-fastapi" => some Stack.reactFastapi
| "react-only" => some Stack.reactOnly
| "fastapi-only" => some Stack.fastapiOnly
| _ => none

/-- Embedding of the Python `Complexity(...)` enum constructor. -/
def complexityOfString : String → Option Complexity
| "simple" => some Complexity.simple
| "standard" => some Complexity.standard
| "complex" => some Complexity.complex
| _ => none

/-- A generated artifact ("file").  Modelled from the spec: path, content,
role tag and language tag (spec section 3); the role is kept as a plain tag
string. -/
structure ProjectFile where
  path : String
  content : String
  role : String
  language : String
deriving DecidableEq, Repr

/-- A dependency entry (name, version).  Modelled from the spec. -/
structure Dep where
  name : String
  version : String
deriving DecidableEq, Repr

/-- An artifact set.  Modelled from the spec (section 3 ArtifactSet) and the
constructor calls in `orchestrator.py`. -/
structure Project where
  name : String
  description : String
  stack : Stack
  complexity : Complexity
  files : List ProjectFile
  frontend_deps : List Dep
  backend_deps : List Dep
  version : Nat
  plan_summary : String
deriving DecidableEq, Repr

/-- `Project.get_file`: the artifact with the given path, if any.
Modelled from the spec ("artifacts: ordered collection keyed by path"). -/
def getFile (p : Project) (path : String) : Option ProjectFile :=
  p.files.find? (fun f => f.path == path)

/-- A specification.  Modelled from the spec and `_spec_from_analysis`. -/
structure Spec where
  name : String
  description : String
  stack : Stack
  complexity : Complexity
  auth_strategy : String
  database : String
deriving DecidableEq, Repr

/-- One ledger entry (`PhaseResult` in the source). -/
structure PhaseResult where
  phase : Phase
  success : Bool
  tokens_used : Nat
  model : String
  error : Option String
deriving DecidableEq, Repr

/-- Batch LLM response, per the external interface (spec section 6). -/
structure LLMResponse where
  content : String
  model : String
  tokensIn : Nat
  tokensOut : Nat
deriving DecidableEq, Repr

/-- The consolidated result returned by `Pipeline.run`. -/
structure GenerationResult where
  project : Project
  phases : List PhaseResult
  total_tokens : Nat
  success : Bool
  errors : List String
deriving DecidableEq, Repr

/-- The typed view of the ANALYZE classification dict; `Option` fields model
possibly-absent dict keys read with `.get`. -/
structure Analysis where
  complexity : Option String
  stack : Option String
  features : List String
  needs_auth : Option Bool
  needs_database : Option Bool
deriving DecidableEq, Repr

/-- Outcome of `json.loads` on the ANALYZE response: either a dict of the
expected classification shape, or some other successfully decoded JSON value
(list, number, string, ...), carried as its printed form. -/
inductive Jsonish
| dict (a : Analysis)
| other (repr : String)
deriving DecidableEq, Repr

/-! ## Model router (`src/aus/pipeline/router.py`) -/

/-- The static preference table `PHASE_MODELS`. -/
def PHASE_MODELS : Phase → List (String × String)
| Phase.analyze =>
  [("gemini", "gemini-3-flash-preview"), ("claude", "claude-haiku-4-5-20251001")]
| Phase.spec => []
| Phase.plan =>
  [("claude", "claude-sonnet-4-6"), ("gemini", "gemini-3-pro-preview")]
| Phase.generate =>
  [("claude", "claude-sonnet-4-6"), ("gemini", "gemini-3-flash-preview")]
| Phase.validate => []
| Phase.iterate =>
  [("gemini", "gemini-3-pro-preview"), ("claude", "claude-sonnet-4-6")]

/-- Is the preference entry's provider backed by a usable credential?
A Python key string is usable iff it is truthy, i.e. non-empty. -/
def usableCred (g a : String) (pm : String × String) : Bool :=
  (pm.1 == "gemini" && g != "") || (pm.1 == "claude" && a != "")

/-- The preference walk in `select_model` (the `for` loop with early return). -/
def selectFromPrefs (g a : String) : List (String × String) → Option String
| [] => none
| pm :: rest =>
  if usableCred g a pm then some pm.2 else selectFromPrefs g a rest

/-- `select_model(phase, gemini_key, anthropic_key)` from `router.py`. -/
def select_model (phase : Phase) (g a : String) : String :=
  match selectFromPrefs g a (PHASE_MODELS phase) with
  | some m => m
  | none =>
    if g != "" then "gemini-3-flash-preview"
    else if a != "" then "claude-sonnet-4-6"
    else "gemini-3-flash-preview"

/-! ## Artifact parser

Modelled from the spec: `aus/generators/parser.py` (FILE_PATTERN,
`parse_files_from_response`, `parse_deps_from_response`, `_clean_content`,
`_infer_role`, `_infer_language`) is not among the provided sources.  Spec
section 4.3: an artifact runs from a `### FILE:` path declaration to the
next artifact-start marker or end of stream; role and language tags are
derived from the path. -/

/-- Language tag inferred from the path extension.  Modelled from the spec;
the tags `tsx`, `ts`, `py` are the ones inspected by the validator. -/
def inferLanguage (path : String) : String :=
  if strEndsWith path ".tsx" then "tsx"
  else if strEndsWith path ".ts" then "ts"
  else if strEndsWith path ".py" then "py"
  else if strEndsWith path ".css" then "css"
  else if strEndsWith path ".json" then "json"
  else if strEndsWith path ".html" then "html"
  else if strEndsWith path ".md" then "md"
  else "text"

/-- Role tag inferred from the path.  Modelled from the spec (classification
tag: entry point / config / style / test / component). -/
def inferRole (path : String) : String :=
  if path == "frontend/src/App.tsx" || path == "backend/app/main.py" then "entry"
  else if strEndsWith path ".css" then "style"
  else if hasSubstr path "test" then "test"
  else if strEndsWith path ".json" then "config"
  else "component"

/-- Content cleanup applied to each matched block.  Modelled from the spec:
the spec does not detail `_clean_content`; whitespace trimming is used. -/
def cleanContent (s : String) : String := pyStrip s

/-- All `### FILE:` blocks of a buffer as (path, content) pairs: each block
starts at a marker, its path is the rest of the marker line (stripped), its
content runs to the next marker or to the end of the buffer.  Modelled from
the spec (section 4.3). -/
def rawBlocks (s : String) : List (String × String) :=
  match splitOnStr "### FILE:" s with
  | [] => []
  | _pre :: rest =>
    rest.map (fun seg =>
      let pathLine : List Char := seg.data.takeWhile (fun c => c != '\n')
      let body : List Char := seg.data.dropWhile (fun c => c != '\n')
      (pyStrip ⟨pathLine⟩, cleanContent ⟨body⟩))

/-- `parse_files_from_response`: the authoritative full-buffer extraction
pass.  Modelled from the spec (sections 4.3 and 3). -/
def parse_files_from_response (s : String) : List ProjectFile :=
  (rawBlocks s).map (fun pc =>
    { path := pc.1, content := pc.2, role := inferRole pc.1,
      language := inferLanguage pc.1 })

/-- Dependencies of one manifest block: `name==version` lines until the next
`###` marker.  Modelled from the spec: the concrete manifest syntax is not
specified; only presence/absence and the (name, version) shape matter. -/
def depsFromBlock (body : String) : List Dep :=
  (splitOnChar '\n' body.data).filterMap (fun line =>
    match splitOnStr "==" ⟨trimCharsBy Char.isWhitespace line⟩ with
    | [n, v] => if n != "" && v != "" then some { name := n, version := v } else none
    | _ => none)

/-- The manifest block following `marker`, cut at the next `###`. -/
def manifestAfter (marker s : String) : List Dep :=
  match splitOnStr marker s with
  | _ :: seg :: _ =>
    match splitOnStr "###" seg with
    | body :: _ => depsFromBlock body
    | [] => []
  | _ => []

/-- `parse_deps_from_response`: one scan per dependency target; absent
manifests yield empty collections.  Modelled from the spec (section 4.3). -/
def parse_deps_from_response (s : String) : List Dep × List Dep :=
  (manifestAfter "### FRONTEND_DEPS" s, manifestAfter "### BACKEND_DEPS" s)

/-! ## Phase orchestrator (`src/aus/pipeline/orchestrator.py`)

The external LLM batch caller is embedded as an oracle
`llm : Phase → String → LLMResponse` indexed by the phase issuing the call
and the requested model id; the request payload (messages, temperature,
max_tokens) is determined by those two in any single run and no claim
inspects it.  `json.loads` (a stdlib call) is embedded as an oracle
`jd : String → Option Jsonish`, `none` meaning `JSONDecodeError`. -/

/-- The fence stripping applied before JSON parsing in `_analyze`:
`content.strip().strip("```json").strip("```")` (Python strips treat the
argument as a character set). -/
def stripFences (s : String) : String :=
  pyStripSet [backquoteChar]
    (pyStripSet [backquoteChar, 'j', 's', 'o', 'n'] (pyStrip s))

/-- The documented default classification substituted on a JSON decode
failure in `_analyze`. -/
def defaultAnalysis : Analysis :=
  { complexity := some "standard", stack := some "react-fastapi",
    features := [], needs_auth := some false, needs_database := some true }

/-- Phase 1 `_analyze`: calls the LLM, decodes the JSON payload, substitutes
the default classification on a decode failure, and appends one ANALYZE
record carrying the response's model and token counts. -/
def analyzePhase (llm : Phase → String → LLMResponse)
    (jd : String → Option Jsonish) (g a : String) : Jsonish × PhaseResult :=
  let resp := llm Phase.analyze (select_model Phase.analyze g a)
  let analysis := (jd (stripFences resp.content)).getD (Jsonish.dict defaultAnalysis)
  (analysis,
   { phase := Phase.analyze, success := true,
     tokens_used := resp.tokensIn + resp.tokensOut, model := resp.model,
     error := none })

/-- Phase 2 `_spec_from_analysis`: builds the Spec from the classification
dict; `none` models the `ValueError` raised by the `Complexity(...)` or
`Stack(...)` enum constructors on an unrecognized value. -/
def spec_from_analysis (a : Analysis) (ur : String) : Option (Spec × PhaseResult) :=
  match complexityOfString (a.complexity.getD "standard"),
        stackOfString (a.stack.getD "react-fastapi") with
  | some c, some st =>
    some ({ name := strTake ur 60, description := ur, stack := st,
            complexity := c,
            auth_strategy := if a.needs_auth.getD false then "jwt" else "none",
            database := if a.needs_database.getD false then "sqlite" else "sqlite" },
          { phase := Phase.spec, success := true, tokens_used := 0,
            model := "", error := none })
  | _, _ => none

/-- The SPEC step applied to the raw ANALYZE output: `.get` on a non-dict
JSON value raises `AttributeError`, modelled as `none`. -/
def specPhase (analysis : Jsonish) (ur : String) : Option (Spec × PhaseResult) :=
  match analysis with
  | Jsonish.dict a => spec_from_analysis a ur
  | Jsonish.other _ => none

/-- Phase 3 `_plan`: one LLM call; the plan text is the response content. -/
def planPhase (llm : Phase → String → LLMResponse) (g a : String)
    (_sp : Spec) : String × PhaseResult :=
  let resp := llm Phase.plan (select_model Phase.plan g a)
  (resp.content,
   { phase := Phase.plan, success := true,
     tokens_used := resp.tokensIn + resp.tokensOut, model := resp.model,
     error := none })

/-- The fallback model list of `_generate` / `_stream_generate`: one model
per credentialed provider, with the primary filtered out. -/
def genFallbacks (g a primary : String) : List String :=
  ((if a != "" then ["claude-sonnet-4-6"] else []) ++
   (if g != "" then ["gemini-3-flash-preview"] else [])).filter
    (fun m => m != primary)

/-- The retry loop of `_generate`: attempt models in order, stop at the
first response with non-empty stripped content; when all attempts are empty
the last attempt's response and model stand. -/
def tryModels (llm : String → LLMResponse) : String → List String → LLMResponse × String
| m, rest =>
  let r := llm m
  if pyStrip r.content != "" then (r, m)
  else
    match rest with
    | [] => (r, m)
    | m2 :: r2 => tryModels llm m2 r2

/-- Phase 4 `_generate`: retry/fallback loop, then a single parse of the
final response into a Project, and one GENERATE record carrying the model
id that was finally used and the final response's token counts. -/
def generatePhase (llmG : String → LLMResponse) (g a : String) (sp : Spec)
    (pl : String) : Project × PhaseResult :=
  let primary := select_model Phase.generate g a
  let attempt := tryModels llmG primary (genFallbacks g a primary)
  let files := parse_files_from_response attempt.1.content
  let deps := parse_deps_from_response attempt.1.content
  ({ name := sp.name, description := sp.description, stack := sp.stack,
     complexity := sp.complexity, files := files,
     frontend_deps := deps.1, backend_deps := deps.2, version := 1,
     plan_summary := strTake pl 500 },
   { phase := Phase.generate, success := true,
     tokens_used := attempt.1.tokensIn + attempt.1.tokensOut,
     model := attempt.2, error := none })

/-- The number of lines of `content` that strip to exactly `...`. -/
def ellipsisLines (content : String) : Nat :=
  ((splitOnChar '\n' content.data).filter
    (fun l => trimCharsBy Char.isWhitespace l == ("...".data))).length

/-- Phase 5 `_validate`: the independent structural checks, in source
order: no-files, frontend entry, backend entry, per-file placeholder and
ellipsis checks, per-file nearly-empty check. -/
def validateErrors (project : Project) (sp : Spec) : List String :=
  let e0 := if project.files = [] then ["No files were generated"] else []
  let e1 :=
    if (sp.stack = Stack.reactFastapi ∨ sp.stack = Stack.reactOnly)
        ∧ getFile project "frontend/src/App.tsx" = none then
      ["Missing frontend entry point: frontend/src/App.tsx"]
    else []
  let e2 :=
    if (sp.stack = Stack.reactFastapi ∨ sp.stack = Stack.fastapiOnly)
        ∧ getFile project "backend/app/main.py" = none then
      ["Missing backend entry point: backend/app/main.py"]
    else []
  let e3 :=
    (project.files.map (fun f =>
      (if hasSubstr f.content "// TODO" || hasSubstr f.content "# TODO" then
        ["Placeholder found in " ++ f.path]
      else []) ++
      (if hasSubstr f.content "..."
          && (f.language == "tsx" || f.language == "ts" || f.language == "py")
          && decide (2 < ellipsisLines f.content) then
        ["Suspected placeholder ... in " ++ f.path]
      else []))).flatten
  let e4 :=
    project.files.filterMap (fun f =>
      if strLen (pyStrip f.content) < 10 then
        some ("Nearly empty file: " ++ f.path)
      else none)
  e0 ++ e1 ++ e2 ++ e3 ++ e4

/-- The VALIDATE step: errors plus the appended VALIDATE record. -/
def validatePhase (project : Project) (sp : Spec) : List String × PhaseResult :=
  let errs := validateErrors project sp
  (errs,
   { phase := Phase.validate, success := errs.isEmpty, tokens_used := 0,
     model := "",
     error := if errs.isEmpty then none else some (joinSep "; " errs) })

/-- The merge step of `_iterate` / `_stream_iterate`: keep existing files
whose path is not among the changed paths, append the changed files,
increment the version, concatenate the new dependency entries. -/
def mergeProject (existing : Project) (changed : List ProjectFile)
    (ndf ndb : List Dep) : Project :=
  let changedPaths := changed.map ProjectFile.path
  { existing with
    files := existing.files.filter (fun f => !(changedPaths.contains f.path)) ++ changed,
    version := existing.version + 1,
    frontend_deps := existing.frontend_deps ++ ndf,
    backend_deps := existing.backend_deps ++ ndb }

/-- Phase 6 `_iterate`: single LLM call (no fallback loop), merge of the
changed files, one ITERATE record; the returned result always has
`success=True` and no validation errors (the validator is not invoked). -/
def iterateRun (llm : Phase → String → LLMResponse) (g a _ur : String)
    (existing : Project) : GenerationResult :=
  let resp := llm Phase.iterate (select_model Phase.iterate g a)
  let changed := parse_files_from_response resp.content
  let deps := parse_deps_from_response resp.content
  let proj := mergeProject existing changed deps.1 deps.2
  let recI : PhaseResult :=
    { phase := Phase.iterate, success := true,
      tokens_used := resp.tokensIn + resp.tokensOut, model := resp.model,
      error := none }
  { project := proj, phases := [recI],
    total_tokens := resp.tokensIn + resp.tokensOut, success := true,
    errors := [] }

/-- `Pipeline.run`: with an existing project, jump to ITERATE; otherwise
ANALYZE, then SPEC (appended only when no spec was supplied), PLAN,
GENERATE, VALIDATE.  `none` models an uncaught exception escaping the run
(the `AttributeError` / `ValueError` reachable through the SPEC step). -/
def run (llm : Phase → String → LLMResponse) (jd : String → Option Jsonish)
    (g a ur : String) (specArg : Option Spec) (existing : Option Project) :
    Option GenerationResult :=
  match existing with
  | some proj => some (iterateRun llm g a ur proj)
  | none =>
    let step1 := analyzePhase llm jd g a
    let specStep : Option (Spec × List PhaseResult) :=
      match specArg with
      | some s => some (s, [step1.2])
      | none => (specPhase step1.1 ur).map (fun p => (p.1, [step1.2, p.2]))
    match specStep with
    | none => none
    | some (sp, ledger) =>
      let step3 := planPhase llm g a sp
      let step4 := generatePhase (llm Phase.generate) g a sp step3.1
      let step5 := validatePhase step4.1 sp
      let phases := ledger ++ [step3.2, step4.2, step5.2]
      some { project := step4.1, phases := phases,
             total_tokens := (phases.map PhaseResult.tokens_used).sum,
             success := step5.1.isEmpty, errors := step5.1 }

/-! ## Streaming extraction engine (`_stream_generate` / `_stream_iterate`) -/

/-- The engine state: the growing buffer and the set of already emitted
paths (a Python `set`, embedded as a list). -/
structure StreamState where
  accumulated : String
  emittedPaths : List String
deriving DecidableEq, Repr

/-- The completed matches of a buffer: every block whose terminating
boundary (the next artifact-start marker) is already in the buffer, i.e.
all blocks except the still-open one at the tail.  Modelled from the spec
(section 4.3: a match is complete once its terminating boundary is found). -/
def completedMatches (s : String) : List (String × String) :=
  (rawBlocks s).dropLast

/-- One scan of the match list against the emitted-path set: emit every
match whose path was not yet emitted and mark it (the
`if path not in emitted_paths` guard of the source). -/
def scanEmit (emitted : List String) :
    List (String × String) → List String × List (String × String)
| [] => (emitted, [])
| m :: ms =>
  if emitted.contains m.1 then scanEmit emitted ms
  else
    let r := scanEmit (m.1 :: emitted) ms
    (r.1, m :: r.2)

/-- `feed(fragment)`: append the fragment to the buffer, re-scan the whole
buffer, emit newly completed unseen matches. -/
def feed (st : StreamState) (frag : String) :
    StreamState × List (String × String) :=
  let acc := st.accumulated ++ frag
  let r := scanEmit st.emittedPaths (completedMatches acc)
  ({ accumulated := acc, emittedPaths := r.1 }, r.2)

/-- Feed a whole fragment sequence, collecting all incremental emissions. -/
def feedAll (st : StreamState) : List String → StreamState × List (String × String)
| [] => (st, [])
| f :: fs =>
  let r1 := feed st f
  let r2 := feedAll r1.1 fs
  (r2.1, r1.2 ++ r2.2)

/-- The end-of-stream final pass: run the authoritative parser over the
complete buffer and emit every artifact not already emitted incrementally
(the final `for f in files: if f.path not in emitted_paths` loop). -/
def finalPassEmit (st : StreamState) : StreamState × List (String × String) :=
  let pairs := (parse_files_from_response st.accumulated).map
    (fun f => (f.path, f.content))
  let r := scanEmit st.emittedPaths pairs
  ({ st with emittedPaths := r.1 }, r.2)

/-- The fresh engine state at the start of an attempt. -/
def initStream : StreamState := { accumulated := "", emittedPaths := [] }

/-- The terminal event of one provider stream (spec section 6): token
counts, the reported model (absent key modelled as `none`) and the
content-block flag. -/
structure StreamDone where
  tokens_in : Nat
  tokens_out : Nat
  model : Option String
  recitation : Bool
deriving DecidableEq, Repr

/-- The fallback loop of `_stream_generate` over a streaming oracle
(model id to fragment list plus terminal done event): an attempt fails when
the done event flags a recitation block or the accumulated text strips to
empty; on failure the next candidate is tried, and on exhaustion the last
attempt's buffer, done event and model stand. -/
def streamTryModels (os : String → List String × StreamDone) :
    String → List String → String × StreamDone × String
| m, rest =>
  let res := os m
  let acc := strConcat res.1
  let used := res.2.model.getD m
  if res.2.recitation || pyStrip acc == "" then
    match rest with
    | [] => (acc, res.2, used)
    | m2 :: r2 => streamTryModels os m2 r2
  else (acc, res.2, used)

/-- The GENERATE record appended by `_stream_generate`: token counts of the
final attempt's done event and the model it reported. -/
def streamGenerateRecord (os : String → List String × StreamDone)
    (g a : String) : PhaseResult :=
  let primary := select_model Phase.generate g a
  let r := streamTryModels os primary (genFallbacks g a primary)
  { phase := Phase.generate, success := true,
    tokens_used := r.2.1.tokens_in + r.2.1.tokens_out, model := r.2.2,
    error := none }

/-! ## Sample fixtures used by witnesses and counterexamples -/

/-- A batch LLM oracle returning a fixed plain response. -/
def sampleLLM : Phase → String → LLMResponse :=
  fun _ m => { content := "hello", model := m, tokensIn := 1, tokensOut := 2 }

/-- A JSON decode oracle that always fails (Python `JSONDecodeError`). -/
def sampleJd : String → Option Jsonish := fun _ => none

/-- A concrete pre-built specification. -/
def sampleSpec : Spec :=
  { name := "todo", description := "a todo app", stack := Stack.reactOnly,
    complexity := Complexity.simple, auth_strategy := "none",
    database := "sqlite" }

/-- A concrete empty project (also the `getD` default for run results). -/
def sampleProject : Project :=
  { name := "todo", description := "a todo app", stack := Stack.reactOnly,
    complexity := Complexity.simple, files := [], frontend_deps := [],
    backend_deps := [], version := 1, plan_summary := "" }

/-- A placeholder result used only as a `getD` default. -/
def dummyResult : GenerationResult :=
  { project := sampleProject, phases := [], total_tokens := 0,
    success := false, errors := [] }

/-! ## Helper lemmas -/

theorem contains_eq_decide_mem (l : List String) (x : String) :
    l.contains x = decide (x ∈ l) := by
  induction l with
  | nil => rfl
  | cons a as ih =>
    by_cases h : x = a
    · subst h; simp [List.contains_cons]
    · simp [List.contains_cons, ih, h, Ne.symm h]

theorem selectFromPrefs_eq_find (g a : String) (l : List (String × String)) :
    selectFromPrefs g a l = (l.find? (usableCred g a)).map Prod.snd := by
  induction l with
  | nil => rfl
  | cons pm rest ih =>
    by_cases h : usableCred g a pm
    · simp [selectFromPrefs, List.find?_cons, h]
    · simp only [Bool.not_eq_true] at h
      simp [selectFromPrefs, List.find?_cons, h, ih]

theorem find_usable_none_of_no_keys (l : List (String × String)) :
    l.find? (usableCred "" "") = none := by
  induction l with
  | nil => rfl
  | cons pm rest ih => simp [List.find?_cons, usableCred, ih]

/-! ## Claim C4 — model router contract -/

/-- C4: for every phase and credential set, `select_model` returns the first
model id in the phase's preference list whose provider has a usable (i.e.
non-empty) credential; when no preference matches it falls back to a usable
provider's default model (Gemini's default first, then Claude's); with no
credentials at all it still returns a default identifier (it never raises,
being a total function); and it is deterministic in its inputs. -/
theorem select_model_contract (phase : Phase) (g a : String) :
    (∀ pm, (PHASE_MODELS phase).find? (usableCred g a) = some pm →
        select_model phase g a = pm.2)
    ∧ ((PHASE_MODELS phase).find? (usableCred g a) = none →
        select_model phase g a =
          (if g != "" then "gemini-3-flash-preview"
           else if a != "" then "claude-sonnet-4-6"
           else "gemini-3-flash-preview"))
    ∧ (g = "" → a = "" → select_model phase g a = "gemini-3-flash-preview")
    ∧ (∀ g2 a2, g2 = g → a2 = a →
        select_model phase g2 a2 = select_model phase g a) := by
  refine ⟨?_, ?_, ?_, ?_⟩
  · intro pm h
    unfold select_model
    rw [selectFromPrefs_eq_find, h]
    rfl
  · intro h
    unfold select_model
    rw [selectFromPrefs_eq_find, h]
    rfl
  · intro hg ha
    subst hg; subst ha
    unfold select_model
    rw [selectFromPrefs_eq_find, find_usable_none_of_no_keys]
    rfl
  · intro g2 a2 hg ha
    subst hg; subst ha
    rfl

/-- Witness for C4 at a concrete input: with only an Anthropic key, the
GENERATE preference walk stops at its first entry. -/
theorem select_model_contract_witness :
    (PHASE_MODELS Phase.generate).find? (usableCred "" "k")
        = some ("claude", "claude-sonnet-4-6")
    ∧ select_model Phase.generate "" "k" = "claude-sonnet-4-6" :=
  ⟨by decide,
   (select_model_contract Phase.generate "" "k").1 ("claude", "claude-sonnet-4-6")
     (by decide)⟩

/-! ## Claim C5 — iteration merge contract -/

/-- C5: the iteration merge keeps exactly the existing artifacts whose path
is not among the changed artifacts' paths, appends the changed artifacts,
increments the version by exactly 1 and concatenates (without
deduplication) the new dependency entries; merging with nothing changed
yields the existing set with only the version incremented. -/
theorem merge_contract (existing : Project) (changed : List ProjectFile)
    (ndf ndb : List Dep) :
    (mergeProject existing changed ndf ndb).files
        = existing.files.filter
            (fun f => decide (f.path ∉ changed.map ProjectFile.path)) ++ changed
    ∧ (mergeProject existing changed ndf ndb).version = existing.version + 1
    ∧ (mergeProject existing changed ndf ndb).frontend_deps
        = existing.frontend_deps ++ ndf
    ∧ (mergeProject existing changed ndf ndb).backend_deps
        = existing.backend_deps ++ ndb
    ∧ mergeProject existing [] [] [] =
        { existing with version := existing.version + 1 } := by
  refine ⟨?_, rfl, rfl, rfl, ?_⟩
  · unfold mergeProject
    simp only []
    congr 1
    apply List.filter_congr
    intro f _
    rw [contains_eq_decide_mem, decide_not]
  · unfold mergeProject
    simp [List.filter_true]

/-! ## Claim C9 — ITERATE path result -/

/-- C9: every batch run with a supplied existing artifact set takes the
ITERATE path; the returned result always has `success = true` and an empty
validation-error list regardless of the refined content, and its ledger is
exactly the single ITERATE record, so the validator contributes no record
and is never invoked on this path. -/
theorem iterate_path_contract (llm : Phase → String → LLMResponse)
    (jd : String → Option Jsonish) (g a ur : String) (specArg : Option Spec)
    (existing : Project) :
    run llm jd g a ur specArg (some existing)
        = some (iterateRun llm g a ur existing)
    ∧ (iterateRun llm g a ur existing).success = true
    ∧ (iterateRun llm g a ur existing).errors = []
    ∧ (iterateRun llm g a ur existing).phases.map PhaseResult.phase
        = [Phase.iterate] :=
  ⟨rfl, rfl, rfl, rfl⟩

/-! ## Claim C10 — data-store field is constant -/

/-- C10: whenever `_spec_from_analysis` successfully builds a Specification,
its data-store field is `"sqlite"` regardless of the `needs_database` flag
(the source conditional has identical branches), while the auth-strategy
field is `"jwt"` or `"none"` exactly according to the truthiness of the
`needs_auth` flag. -/
theorem spec_database_contract (a : Analysis) (ur : String) (sp : Spec)
    (recS : PhaseResult) (h : spec_from_analysis a ur = some (sp, recS)) :
    sp.database = "sqlite"
    ∧ sp.auth_strategy = (if a.needs_auth.getD false then "jwt" else "none") := by
  unfold spec_from_analysis at h
  cases hc : complexityOfString (a.complexity.getD "standard") with
  | none => rw [hc] at h; exact absurd h (by simp)
  | some c =>
    cases hs : stackOfString (a.stack.getD "react-fastapi") with
    | none => rw [hc, hs] at h; exact absurd h (by simp)
    | some st =>
      rw [hc, hs] at h
      simp only [Option.some.injEq, Prod.mk.injEq] at h
      obtain ⟨h1, h2⟩ := h
      subst h1
      constructor
      · show (if a.needs_database.getD false then "sqlite" else "sqlite") = "sqlite"
        simp
      · rfl

/-- A concrete analysis dict with `needs_database = false`. -/
def w10a : Analysis :=
  { complexity := some "standard", stack := some "react-only",
    features := [], needs_auth := some true, needs_database := some false }

/-- The specification built from `w10a`. -/
def w10spec : Spec :=
  { name := "req", description := "req", stack := Stack.reactOnly,
    complexity := Complexity.standard, auth_strategy := "jwt",
    database := "sqlite" }

/-- The SPEC record appended alongside `w10spec`. -/
def w10rec : PhaseResult :=
  { phase := Phase.spec, success := true, tokens_used := 0, model := "",
    error := none }

/-- Witness for C10 at a concrete analysis with `needs_database = false`:
the database field is still `"sqlite"`. -/
theorem spec_database_contract_witness :
    spec_from_analysis w10a "req" = some (w10spec, w10rec)
    ∧ w10spec.database = "sqlite" :=
  ⟨by decide, (spec_database_contract w10a "req" w10spec w10rec (by decide)).1⟩

/-! ## Claim C8 — ANALYZE recovery from malformed output -/

/-- An ANALYZE response whose content is the JSON number 42: valid JSON, but
not the expected classification payload. -/
def w8llm : Phase → String → LLMResponse :=
  fun _ m => { content := "42", model := m, tokensIn := 1, tokensOut := 2 }

/-- The decode oracle for `w8llm`: `json.loads("42")` succeeds and returns a
non-dict value, so there is no `JSONDecodeError`. -/
def w8jd : String → Option Jsonish :=
  fun s => if s == "42" then some (Jsonish.other "42") else none

/-- Counterexample to C8 as stated: the content `"42"` is not parseable as
the expected classification payload (it decodes to a JSON number, not a
dict), yet `_analyze` does not substitute the documented default — the
`except` clause catches only `json.JSONDecodeError`, so the non-dict value
is passed through unchanged. -/
theorem analyze_claim_counterexample :
    w8jd (stripFences (w8llm Phase.analyze
        (select_model Phase.analyze "g" "")).content) = some (Jsonish.other "42")
    ∧ (analyzePhase w8llm w8jd "g" "").1 = Jsonish.other "42"
    ∧ Jsonish.other "42" ≠ Jsonish.dict defaultAnalysis := by decide

/-- C8 (amended): when JSON decoding of the ANALYZE response content fails
outright (a `JSONDecodeError`), the phase substitutes the documented default
classification (complexity standard, stack react-fastapi, no features, no
auth, database needed) and still records a successful ANALYZE entry;
the phase itself never propagates a decode error (it is total: for every
decode outcome the record reports success).  Content that decodes to JSON
of an unexpected shape is passed through unchanged, not defaulted. -/
theorem analyze_default_contract (llm : Phase → String → LLMResponse)
    (jd : String → Option Jsonish) (g a : String)
    (h : jd (stripFences (llm Phase.analyze
        (select_model Phase.analyze g a)).content) = none) :
    (analyzePhase llm jd g a).1 = Jsonish.dict defaultAnalysis
    ∧ (analyzePhase llm jd g a).2.success = true
    ∧ (∀ jd2 : String → Option Jsonish,
        (analyzePhase llm jd2 g a).2.success = true) := by
  refine ⟨?_, rfl, fun _ => rfl⟩
  unfold analyzePhase
  simp only [h]
  rfl

/-- An ANALYZE response with unparseable content. -/
def w8llmBad : Phase → String → LLMResponse :=
  fun _ m => { content := "not json at all", model := m, tokensIn := 3,
               tokensOut := 4 }

/-- Witness for C8 (amended): on a decode failure the default classification
is substituted. -/
theorem analyze_default_contract_witness :
    sampleJd (stripFences (w8llmBad Phase.analyze
        (select_model Phase.analyze "g" "")).content) = none
    ∧ (analyzePhase w8llmBad sampleJd "g" "").1 = Jsonish.dict defaultAnalysis :=
  ⟨rfl, (analyze_default_contract w8llmBad sampleJd "g" "" rfl).1⟩

/-! ## Claim C6 — validator contract -/

/-- C6 (amended): for every specification, validating an artifact set with
zero artifacts reports at least the "no files generated" error; and
validating an artifact set that contains the entry points required by the
stack, in which every artifact body is longer than 10 characters after
whitespace-stripping, contains neither `// TODO` nor `# TODO`, and has at
most two ellipsis-only lines, yields an empty error list. -/
theorem validate_contract (sp : Spec) (p : Project) :
    (p.files = [] → "No files were generated" ∈ validateErrors p sp)
    ∧ ((((sp.stack = Stack.reactFastapi ∨ sp.stack = Stack.reactOnly) →
            getFile p "frontend/src/App.tsx" ≠ none)
        ∧ ((sp.stack = Stack.reactFastapi ∨ sp.stack = Stack.fastapiOnly) →
            getFile p "backend/app/main.py" ≠ none)
        ∧ (∀ f ∈ p.files, 10 < strLen (pyStrip f.content)
            ∧ hasSubstr f.content "// TODO" = false
            ∧ hasSubstr f.content "# TODO" = false
            ∧ ellipsisLines f.content ≤ 2))
       → validateErrors p sp = []) := by
  constructor
  · intro h
    unfold validateErrors
    rw [if_pos h]
    exact List.mem_append_left _ (List.mem_append_left _
      (List.mem_append_left _ (List.mem_append_left _ (List.mem_singleton.2 rfl))))
  · rintro ⟨hfe, hbe, hbody⟩
    have hne : p.files ≠ [] := by
      intro hnil
      cases hst : sp.stack with
      | reactFastapi =>
        apply hfe (Or.inl hst)
        unfold getFile
        rw [hnil]
        rfl
      | reactOnly =>
        apply hfe (Or.inr hst)
        unfold getFile
        rw [hnil]
        rfl
      | fastapiOnly =>
        apply hbe (Or.inr hst)
        unfold getFile
        rw [hnil]
        rfl
    unfold validateErrors
    rw [if_neg hne]
    rw [if_neg (fun hc => hfe hc.1 hc.2)]
    rw [if_neg (fun hc => hbe hc.1 hc.2)]
    simp only [List.nil_append]
    rw [List.append_eq_nil]
    refine ⟨?_, ?_⟩
    · rw [List.flatten_eq_nil_iff]
      intro x hx
      rw [List.mem_map] at hx
      obtain ⟨f, hf, rfl⟩ := hx
      obtain ⟨-, ht1, ht2, he⟩ := hbody f hf
      rw [ht1, ht2]
      simp only [Bool.or_false, Bool.false_or, if_neg, Bool.false_eq_true,
        not_false_eq_true, List.nil_append]
      have : decide (2 < ellipsisLines f.content) = false := by
        simp [Nat.not_lt.2 he]
      rw [this, Bool.and_false]
      rfl
    · rw [List.filterMap_eq_nil_iff]
      intro f hf
      obtain ⟨hlen, -, -, -⟩ := hbody f hf
      rw [if_neg (Nat.not_lt.2 (Nat.le_of_lt hlen))]

/-- The frontend entry artifact used in the C6 fixtures. -/
def w6app : ProjectFile :=
  { path := "frontend/src/App.tsx", content := "export default function App()",
    role := "entry", language := "tsx" }

/-- An artifact whose body is 11 characters long but all whitespace. -/
def w6notes : ProjectFile :=
  { path := "notes.txt", content := "           ", role := "component",
    language := "text" }

/-- The react-only specification used in the C6 fixtures. -/
def w6spec : Spec :=
  { name := "todo", description := "a todo app", stack := Stack.reactOnly,
    complexity := Complexity.standard, auth_strategy := "none",
    database := "sqlite" }

/-- The artifact set refuting C6 as stated. -/
def w6proj : Project :=
  { name := "todo", description := "a todo app", stack := Stack.reactOnly,
    complexity := Complexity.standard, files := [w6app, w6notes],
    frontend_deps := [], backend_deps := [], version := 1, plan_summary := "" }

/-- Counterexample to C6 as stated: the artifact set contains the required
entry point, every body is longer than 10 raw characters, no body contains
a TODO marker or more than two ellipsis-only lines — yet validation is not
empty, because the source measures the body length after `strip()` and the
second artifact is 11 whitespace characters. -/
theorem validate_claim_counterexample :
    getFile w6proj "frontend/src/App.tsx" ≠ none
    ∧ 10 < strLen w6app.content ∧ 10 < strLen w6notes.content
    ∧ hasSubstr w6app.content "// TODO" = false
    ∧ hasSubstr w6app.content "# TODO" = false
    ∧ hasSubstr w6notes.content "// TODO" = false
    ∧ hasSubstr w6notes.content "# TODO" = false
    ∧ ellipsisLines w6app.content ≤ 2 ∧ ellipsisLines w6notes.content ≤ 2
    ∧ validateErrors w6proj w6spec = ["Nearly empty file: notes.txt"]
    ∧ validateErrors w6proj w6spec ≠ [] := by decide

/-- The well-formed artifact set for the C6 witness. -/
def w6good : Project :=
  { name := "todo", description := "a todo app", stack := Stack.reactOnly,
    complexity := Complexity.standard, files := [w6app],
    frontend_deps := [], backend_deps := [], version := 1, plan_summary := "" }

/-- Witness for C6 (amended): an artifact set with the required entry point
and a substantial, placeholder-free body validates cleanly. -/
theorem validate_contract_witness :
    10 < strLen (pyStrip w6app.content)
    ∧ validateErrors w6good w6spec = [] :=
  ⟨by decide, (validate_contract w6spec w6good).2 (by decide)⟩

/-! ## Claim C1 — GENERATE fallback record -/

theorem tryModels_stop (llm : String → LLMResponse) (m : String)
    (rest : List String) (h : (pyStrip (llm m).content != "") = true) :
    tryModels llm m rest = (llm m, m) := by
  cases rest <;> simp [tryModels, h]

theorem streamTryModels_stop (os : String → List String × StreamDone)
    (m : String) (rest : List String)
    (hrec : (os m).2.recitation = false)
    (hbeq : (pyStrip (strConcat (os m).1) == "") = false) :
    streamTryModels os m rest
      = (strConcat (os m).1, (os m).2, (os m).2.model.getD m) := by
  cases rest <;> simp [streamTryModels, hrec, hbeq]

theorem tryModels_first_success (llm : String → LLMResponse) (mS : String) :
    ∀ (rest : List String) (m : String),
      pyStrip (llm m).content = "" →
      rest.find? (fun mi => pyStrip (llm mi).content != "") = some mS →
      tryModels llm m rest = (llm mS, mS) := by
  intro rest
  induction rest with
  | nil =>
    intro m _ hfind
    exact absurd hfind (by simp)
  | cons m2 r2 ih =>
    intro m hm hfind
    rw [List.find?_cons] at hfind
    cases h2 : (pyStrip (llm m2).content != "") with
    | true =>
      rw [h2] at hfind
      simp only [Option.some.injEq] at hfind
      subst hfind
      have hstop := tryModels_stop llm m2 r2 h2
      simp [tryModels, hm, hstop]
    | false =>
      rw [h2] at hfind
      have hm2 : pyStrip (llm m2).content = "" := by
        simpa using h2
      have hrec := ih m2 hm2 hfind
      simp [tryModels, hm, hrec]

theorem streamTryModels_first_success (os : String → List String × StreamDone)
    (mS : String) :
    ∀ (rest : List String) (m : String),
      ((os m).2.recitation = true ∨ pyStrip (strConcat (os m).1) = "") →
      rest.find? (fun mi =>
          !(os mi).2.recitation && pyStrip (strConcat (os mi).1) != "")
        = some mS →
      streamTryModels os m rest
        = (strConcat (os mS).1, (os mS).2, (os mS).2.model.getD mS) := by
  intro rest
  induction rest with
  | nil =>
    intro m _ hfind
    exact absurd hfind (by simp)
  | cons m2 r2 ih =>
    intro m hm hfind
    have hcond : ((os m).2.recitation || pyStrip (strConcat (os m).1) == "") = true := by
      rcases hm with h | h
      · rw [h]; rfl
      · rw [h]; simp
    rw [List.find?_cons] at hfind
    cases h2 : (!(os m2).2.recitation && pyStrip (strConcat (os m2).1) != "") with
    | true =>
      rw [h2] at hfind
      simp only [Option.some.injEq] at hfind
      subst hfind
      have h2' : (!(os m2).2.recitation) = true
          ∧ (pyStrip (strConcat (os m2).1) != "") = true := by
        simpa using h2
      have hrec : (os m2).2.recitation = false := by
        cases hr : (os m2).2.recitation
        · rfl
        · rw [hr] at h2'; exact absurd h2'.1 (by simp)
      have hbeq : (pyStrip (strConcat (os m2).1) == "") = false := by
        cases hb : (pyStrip (strConcat (os m2).1) == "")
        · rfl
        · exfalso
          have hb2 := h2'.2
          rw [show (pyStrip (strConcat (os m2).1) != "")
              = !(pyStrip (strConcat (os m2).1) == "") from rfl, hb] at hb2
          exact absurd hb2 (by simp)
      have hstop := streamTryModels_stop os m2 r2 hrec hbeq
      simp [streamTryModels, hcond, hstop]
    | false =>
      rw [h2] at hfind
      have hm2 : (os m2).2.recitation = true ∨ pyStrip (strConcat (os m2).1) = "" := by
        cases hr : (os m2).2.recitation
        · right
          rw [hr] at h2
          simpa using h2
        · left; rfl
      have hrec := ih m2 hm2 hfind
      simp [streamTryModels, hcond, hrec]

/-- C1 (amended): in both the batch and the streaming GENERATE phase, when
the primary model's attempt is empty/blocked and a later candidate is the
first to return non-empty, non-blocked content, exactly one GENERATE record
is appended for the whole attempt sequence and its model field names the
candidate that finally succeeded (in streaming, the model reported by that
attempt's done event, defaulting to the candidate id) — but its tokens-used
field carries only the final successful attempt's token counts, not the sum
over all attempts. -/
theorem generate_fallback_contract (llm : Phase → String → LLMResponse)
    (os : String → List String × StreamDone) (jd : String → Option Jsonish)
    (g a ur : String) (s0 : Spec) (pl : String) (mB mS : String)
    (hb1 : pyStrip ((llm Phase.generate) (select_model Phase.generate g a)).content = "")
    (hb2 : (genFallbacks g a (select_model Phase.generate g a)).find?
        (fun mi => pyStrip ((llm Phase.generate) mi).content != "") = some mB)
    (hs1 : (os (select_model Phase.generate g a)).2.recitation = true
        ∨ pyStrip (strConcat (os (select_model Phase.generate g a)).1) = "")
    (hs2 : (genFallbacks g a (select_model Phase.generate g a)).find?
        (fun mi => !(os mi).2.recitation && pyStrip (strConcat (os mi).1) != "")
        = some mS) :
    ((generatePhase (llm Phase.generate) g a s0 pl).2.model = mB
      ∧ (generatePhase (llm Phase.generate) g a s0 pl).2.tokens_used
          = ((llm Phase.generate) mB).tokensIn + ((llm Phase.generate) mB).tokensOut)
    ∧ ((streamGenerateRecord os g a).model = (os mS).2.model.getD mS
      ∧ (streamGenerateRecord os g a).tokens_used
          = (os mS).2.tokens_in + (os mS).2.tokens_out)
    ∧ (∃ r, run llm jd g a ur (some s0) none = some r
        ∧ r.phases.filter (fun p => p.phase == Phase.generate)
            = [(generatePhase (llm Phase.generate) g a s0
                  (planPhase llm g a s0).1).2]) := by
  have hbatch := tryModels_first_success (llm Phase.generate) mB
    (genFallbacks g a (select_model Phase.generate g a))
    (select_model Phase.generate g a) hb1 hb2
  have hstream := streamTryModels_first_success os mS
    (genFallbacks g a (select_model Phase.generate g a))
    (select_model Phase.generate g a) hs1 hs2
  refine ⟨⟨?_, ?_⟩, ⟨?_, ?_⟩, ?_⟩
  · show (tryModels (llm Phase.generate) (select_model Phase.generate g a)
        (genFallbacks g a (select_model Phase.generate g a))).2 = mB
    rw [hbatch]
  · show (tryModels (llm Phase.generate) (select_model Phase.generate g a)
        (genFallbacks g a (select_model Phase.generate g a))).1.tokensIn
      + (tryModels (llm Phase.generate) (select_model Phase.generate g a)
        (genFallbacks g a (select_model Phase.generate g a))).1.tokensOut
      = ((llm Phase.generate) mB).tokensIn + ((llm Phase.generate) mB).tokensOut
    rw [hbatch]
  · show (streamTryModels os (select_model Phase.generate g a)
        (genFallbacks g a (select_model Phase.generate g a))).2.2
      = (os mS).2.model.getD mS
    rw [hstream]
  · show (streamTryModels os (select_model Phase.generate g a)
        (genFallbacks g a (select_model Phase.generate g a))).2.1.tokens_in
      + (streamTryModels os (select_model Phase.generate g a)
        (genFallbacks g a (select_model Phase.generate g a))).2.1.tokens_out
      = (os mS).2.tokens_in + (os mS).2.tokens_out
    rw [hstream]
  · exact ⟨_, rfl, rfl⟩

/-- The batch LLM oracle for the C1 fixtures: the primary GENERATE model
(Claude Sonnet, both keys present) returns empty content with 10+0 tokens;
the Gemini Flash fallback returns an artifact block with 5+7 tokens. -/
def w1llm : Phase → String → LLMResponse := fun ph m =>
  if ph == Phase.generate then
    if m == "claude-sonnet-4-6" then
      { content := "", model := "claude-sonnet-4-6", tokensIn := 10, tokensOut := 0 }
    else
      { content := "### FILE: a.py\nprint(1)\n", model := "gemini-3-flash-preview",
        tokensIn := 5, tokensOut := 7 }
  else { content := "plan text", model := m, tokensIn := 1, tokensOut := 1 }

/-- The streaming oracle for the C1 fixtures: the primary attempt is
recitation-blocked with 10+0 tokens, the fallback streams an artifact with
5+7 tokens. -/
def w1os : String → List String × StreamDone := fun m =>
  if m == "claude-sonnet-4-6" then
    ([], { tokens_in := 10, tokens_out := 0, model := none, recitation := true })
  else
    (["### FILE: a.py\n", "print(1)\n"],
     { tokens_in := 5, tokens_out := 7, model := none, recitation := false })

/-- Counterexample to C1 as stated: with two credentialed providers, an
empty primary attempt costing 10+0 tokens and a succeeding fallback
attempt costing 5+7 tokens, the GENERATE record's model is the succeeding
candidate but its tokens-used is 12 — the final attempt's count — whereas
the claim demands the sum over all attempts, 22. -/
theorem generate_tokens_counterexample :
    (w1llm Phase.generate "claude-sonnet-4-6").content = ""
    ∧ (generatePhase (w1llm Phase.generate) "g" "a" sampleSpec "plan").2.model
        = "gemini-3-flash-preview"
    ∧ (generatePhase (w1llm Phase.generate) "g" "a" sampleSpec "plan").2.tokens_used
        = 12
    ∧ (10 + 0) + (5 + 7) = 22
    ∧ (12 : Nat) ≠ 22 := by decide

/-- Witness for C1 (amended), applying the contract at the concrete
fixtures: the record names the fallback model and carries only its token
counts, in both the batch and the streaming path. -/
theorem generate_fallback_contract_witness :
    pyStrip ((w1llm Phase.generate) (select_model Phase.generate "g" "a")).content = ""
    ∧ (genFallbacks "g" "a" (select_model Phase.generate "g" "a")).find?
        (fun mi => pyStrip ((w1llm Phase.generate) mi).content != "")
        = some "gemini-3-flash-preview"
    ∧ ((w1os (select_model Phase.generate "g" "a")).2.recitation = true
        ∨ pyStrip (strConcat (w1os (select_model Phase.generate "g" "a")).1) = "")
    ∧ (genFallbacks "g" "a" (select_model Phase.generate "g" "a")).find?
        (fun mi => !(w1os mi).2.recitation && pyStrip (strConcat (w1os mi).1) != "")
        = some "gemini-3-flash-preview"
    ∧ (generatePhase (w1llm Phase.generate) "g" "a" sampleSpec "plan").2.model
        = "gemini-3-flash-preview"
    ∧ (streamGenerateRecord w1os "g" "a").tokens_used
        = (w1os "gemini-3-flash-preview").2.tokens_in
          + (w1os "gemini-3-flash-preview").2.tokens_out :=
  ⟨by decide, by decide, by decide, by decide,
   ((generate_fallback_contract w1llm w1os sampleJd "g" "a" "req" sampleSpec
      "plan" "gemini-3-flash-preview" "gemini-3-flash-preview"
      (by decide) (by decide) (by decide) (by decide)).1).1,
   ((generate_fallback_contract w1llm w1os sampleJd "g" "a" "req" sampleSpec
      "plan" "gemini-3-flash-preview" "gemini-3-flash-preview"
      (by decide) (by decide) (by decide) (by decide)).2).1.2⟩

/-! ## Claim C3 — ledger order -/

theorem specPhase_phase_eq (analysis : Jsonish) (ur : String) (sp : Spec)
    (recS : PhaseResult) (h : specPhase analysis ur = some (sp, recS)) :
    recS.phase = Phase.spec := by
  cases analysis with
  | other s => exact absurd h (by simp [specPhase])
  | dict a =>
    have h2 : spec_from_analysis a ur = some (sp, recS) := h
    unfold spec_from_analysis at h2
    cases hc : complexityOfString (a.complexity.getD "standard") with
    | none => rw [hc] at h2; exact absurd h2 (by simp)
    | some c =>
      cases hs : stackOfString (a.stack.getD "react-fastapi") with
      | none => rw [hc, hs] at h2; exact absurd h2 (by simp)
      | some st =>
        rw [hc, hs] at h2
        simp only [Option.some.injEq, Prod.mk.injEq] at h2
        rw [← h2.2]

/-- Counterexample to C3 as stated: a run with a caller-supplied pre-built
specification appends no SPEC record (`_spec_from_analysis`, the only place
a SPEC record is created, is skipped), so its ledger is
[ANALYZE, PLAN, GENERATE, VALIDATE], not the claimed five-phase list. -/
theorem ledger_claim_counterexample :
    (run sampleLLM sampleJd "g" "" "req" (some sampleSpec) none).map
        (fun r => r.phases.map PhaseResult.phase)
      = some [Phase.analyze, Phase.plan, Phase.generate, Phase.validate]
    ∧ some [Phase.analyze, Phase.plan, Phase.generate, Phase.validate]
      ≠ some [Phase.analyze, Phase.spec, Phase.plan, Phase.generate,
              Phase.validate] := by decide

/-- C3 (amended): a batch run without a supplied artifact set and without a
supplied specification has ledger exactly
[ANALYZE, SPEC, PLAN, GENERATE, VALIDATE]; with a supplied specification
the SPEC record is skipped and the ledger is exactly
[ANALYZE, PLAN, GENERATE, VALIDATE]; with a supplied existing artifact set
the ledger is exactly [ITERATE]. -/
theorem ledger_order_contract (llm : Phase → String → LLMResponse)
    (jd : String → Option Jsonish) (g a ur : String) (s : Spec)
    (proj : Project) (specArg : Option Spec) :
    (∀ r, run llm jd g a ur none none = some r →
        r.phases.map PhaseResult.phase
          = [Phase.analyze, Phase.spec, Phase.plan, Phase.generate,
             Phase.validate])
    ∧ (run llm jd g a ur (some s) none).map
        (fun r => r.phases.map PhaseResult.phase)
      = some [Phase.analyze, Phase.plan, Phase.generate, Phase.validate]
    ∧ (run llm jd g a ur specArg (some proj)).map
        (fun r => r.phases.map PhaseResult.phase)
      = some [Phase.iterate] := by
  refine ⟨?_, rfl, rfl⟩
  intro r h
  cases hsp : specPhase (analyzePhase llm jd g a).1 ur with
  | none =>
    simp [run, hsp] at h
  | some p =>
    simp only [run, hsp, Option.map, Option.some.injEq] at h
    have hphase : p.2.phase = Phase.spec :=
      specPhase_phase_eq (analyzePhase llm jd g a).1 ur p.1 p.2 hsp
    rw [← h]
    simp [analyzePhase, planPhase, generatePhase, validatePhase, hphase]

set_option maxHeartbeats 2000000

/-- The run result underlying the C3 witness. -/
def w3res : GenerationResult :=
  (run sampleLLM sampleJd "g" "" "req" none none).getD dummyResult

/-- Witness for C3 (amended): a concrete spec-less run (decode failure gives
the default classification, whose enum values parse) produces the
five-phase ledger. -/
theorem ledger_order_contract_witness :
    run sampleLLM sampleJd "g" "" "req" none none = some w3res
    ∧ w3res.phases.map PhaseResult.phase
        = [Phase.analyze, Phase.spec, Phase.plan, Phase.generate,
           Phase.validate] :=
  ⟨by decide,
   (ledger_order_contract sampleLLM sampleJd "g" "" "req" sampleSpec
      sampleProject none).1 w3res (by decide)⟩

/-! ## Claim C7 — success flag and no rollback -/

/-- The specification actually used by a non-iterate batch run: the supplied
one, or the one derived from the (possibly defaulted) analysis. -/
def specUsed (llm : Phase → String → LLMResponse) (jd : String → Option Jsonish)
    (g a ur : String) (specArg : Option Spec) : Option Spec :=
  match specArg with
  | some s => some s
  | none => (specPhase (analyzePhase llm jd g a).1 ur).map Prod.fst

/-- C7: for every non-iterate batch run, the returned result's success flag
is true exactly when the validation error list is empty; the error list is
precisely the validator's output on the returned project; and the returned
project is exactly the artifact set produced by the GENERATE phase — it is
returned unchanged even when validation errors exist (no rollback). -/
theorem run_success_contract (llm : Phase → String → LLMResponse)
    (jd : String → Option Jsonish) (g a ur : String) (specArg : Option Spec)
    (r : GenerationResult) (sp : Spec)
    (h1 : run llm jd g a ur specArg none = some r)
    (h2 : specUsed llm jd g a ur specArg = some sp) :
    (r.success = true ↔ r.errors = [])
    ∧ r.errors = validateErrors r.project sp
    ∧ r.project = (generatePhase (llm Phase.generate) g a sp
        (planPhase llm g a sp).1).1 := by
  cases specArg with
  | some s =>
    simp only [specUsed, Option.some.injEq] at h2
    subst h2
    simp only [run, Option.some.injEq] at h1
    subst h1
    exact ⟨List.isEmpty_iff, rfl, rfl⟩
  | none =>
    cases hsp : specPhase (analyzePhase llm jd g a).1 ur with
    | none =>
      simp [run, hsp] at h1
    | some p =>
      simp only [specUsed, hsp, Option.map, Option.some.injEq] at h2
      simp only [run, hsp, Option.map, Option.some.injEq] at h1
      subst h2
      subst h1
      exact ⟨List.isEmpty_iff, rfl, rfl⟩

/-- The run result underlying the C7 witness. -/
def w7res : GenerationResult :=
  (run sampleLLM sampleJd "g" "" "req" (some sampleSpec) none).getD dummyResult

/-- Witness for C7 at a concrete run whose validation fails (the sample
response contains no artifact block): success is false, the errors are the
validator's and the generated (empty) artifact set is still returned. -/
theorem run_success_contract_witness :
    run sampleLLM sampleJd "g" "" "req" (some sampleSpec) none = some w7res
    ∧ specUsed sampleLLM sampleJd "g" "" "req" (some sampleSpec)
        = some sampleSpec
    ∧ ((w7res.success = true ↔ w7res.errors = [])
        ∧ w7res.errors = validateErrors w7res.project sampleSpec
        ∧ w7res.project = (generatePhase (sampleLLM Phase.generate) "g" ""
            sampleSpec (planPhase sampleLLM "g" "" sampleSpec).1).1) :=
  ⟨by decide, rfl,
   run_success_contract sampleLLM sampleJd "g" "" "req" (some sampleSpec)
     w7res sampleSpec (by decide) rfl⟩

/-! ## Claim C2 — streaming extraction engine -/

theorem strData_append (x y : String) : (x ++ y).data = x.data ++ y.data := rfl

theorem strAppend_assoc (x y z : String) : (x ++ y) ++ z = x ++ (y ++ z) := by
  apply String.ext
  simp only [strData_append, List.append_assoc]

theorem strAppend_empty (x : String) : x ++ "" = x := by
  apply String.ext
  simp only [strData_append]
  exact List.append_nil _

theorem strEmpty_append (x : String) : "" ++ x = x := by
  apply String.ext
  simp only [strData_append]
  rfl

theorem foldl_append_eq (l : List String) :
    ∀ init, l.foldl (fun a b => a ++ b) init = init ++ strConcat l := by
  induction l with
  | nil =>
    intro init
    exact (strAppend_empty init).symm
  | cons x xs ih =>
    intro init
    show xs.foldl (fun a b => a ++ b) (init ++ x) = init ++ strConcat (x :: xs)
    rw [ih (init ++ x), strAppend_assoc]
    congr 1
    show x ++ strConcat xs = xs.foldl (fun a b => a ++ b) ("" ++ x)
    rw [ih ("" ++ x), strEmpty_append]

theorem strConcat_cons (f : String) (fs : List String) :
    strConcat (f :: fs) = f ++ strConcat fs := by
  show fs.foldl (fun a b => a ++ b) ("" ++ f) = f ++ strConcat fs
  rw [foldl_append_eq fs ("" ++ f), strEmpty_append]

theorem feedAll_accumulated (frags : List String) :
    ∀ st : StreamState,
      (feedAll st frags).1.accumulated = st.accumulated ++ strConcat frags := by
  induction frags with
  | nil =>
    intro st
    exact (strAppend_empty _).symm
  | cons f fs ih =>
    intro st
    show (feedAll (feed st f).1 fs).1.accumulated
        = st.accumulated ++ strConcat (f :: fs)
    rw [ih (feed st f).1]
    show (st.accumulated ++ f) ++ strConcat fs
        = st.accumulated ++ strConcat (f :: fs)
    rw [strAppend_assoc, strConcat_cons]

theorem scanEmit_spec (ms : List (String × String)) :
    ∀ E : List String,
      (scanEmit E ms).1 = ((scanEmit E ms).2.map Prod.fst).reverse ++ E
      ∧ (∀ p ∈ (scanEmit E ms).2.map Prod.fst, p ∉ E)
      ∧ ((scanEmit E ms).2.map Prod.fst).Nodup := by
  induction ms with
  | nil =>
    intro E
    exact ⟨rfl, by simp [scanEmit], List.nodup_nil⟩
  | cons m ms ih =>
    intro E
    cases hmem : E.contains m.1 with
    | true =>
      simp only [scanEmit, hmem, if_true]
      exact ih E
    | false =>
      have hm : m.1 ∉ E := by
        rw [contains_eq_decide_mem] at hmem
        simpa using hmem
      obtain ⟨ihs, ihf, ihn⟩ := ih (m.1 :: E)
      simp only [scanEmit, hmem, Bool.false_eq_true, if_false]
      refine ⟨?_, ?_, ?_⟩
      · simp only [List.map_cons, List.reverse_cons, List.append_assoc,
          List.singleton_append]
        exact ihs
      · intro p hp
        simp only [List.map_cons, List.mem_cons] at hp
        rcases hp with rfl | hp
        · exact hm
        · intro hpE
          exact ihf p hp (List.mem_cons_of_mem _ hpE)
      · simp only [List.map_cons, List.nodup_cons]
        refine ⟨?_, ihn⟩
        intro hmm
        exact ihf m.1 hmm (List.mem_cons_self _ _)

theorem feedAll_emits (frags : List String) :
    ∀ st : StreamState,
      (feedAll st frags).1.emittedPaths
          = ((feedAll st frags).2.map Prod.fst).reverse ++ st.emittedPaths
      ∧ (∀ p ∈ (feedAll st frags).2.map Prod.fst, p ∉ st.emittedPaths)
      ∧ ((feedAll st frags).2.map Prod.fst).Nodup := by
  induction frags with
  | nil =>
    intro st
    exact ⟨rfl, by simp [feedAll], List.nodup_nil⟩
  | cons f fs ih =>
    intro st
    obtain ⟨hs1, hf1, hn1⟩ :=
      scanEmit_spec (completedMatches (st.accumulated ++ f)) st.emittedPaths
    obtain ⟨hs2, hf2, hn2⟩ := ih (feed st f).1
    have hst1 : (feed st f).1.emittedPaths
        = ((feed st f).2.map Prod.fst).reverse ++ st.emittedPaths := hs1
    refine ⟨?_, ?_, ?_⟩
    · show (feedAll (feed st f).1 fs).1.emittedPaths
          = (((feed st f).2 ++ (feedAll (feed st f).1 fs).2).map Prod.fst).reverse
            ++ st.emittedPaths
      rw [hs2, hst1, List.map_append, List.reverse_append, List.append_assoc]
    · intro p hp
      show p ∉ st.emittedPaths
      rw [show (feedAll st (f :: fs)).2
          = (feed st f).2 ++ (feedAll (feed st f).1 fs).2 from rfl,
        List.map_append, List.mem_append] at hp
      rcases hp with hp | hp
      · exact hf1 p hp
      · intro hpE
        apply hf2 p hp
        rw [hst1]
        exact List.mem_append_right _ hpE
    · show (((feed st f).2 ++ (feedAll (feed st f).1 fs).2).map Prod.fst).Nodup
      rw [List.map_append]
      refine List.Nodup.append hn1 hn2 ?_
      intro p hp1 hp2
      apply hf2 p hp2
      rw [hst1]
      exact List.mem_append_left _ (List.mem_reverse.2 hp1)

/-- C2: feeding a complete generation output to the streaming extraction
engine in any fragment split (including one character per fragment), then
running the end-of-stream final pass, yields the same final extracted
artifact set as feeding the whole text as a single fragment — the final
set is the authoritative parse of the accumulated buffer, which depends
only on the concatenation of the fragments; and across all incremental
emissions plus the final pass of one streamed attempt, no artifact path is
ever emitted twice. -/
theorem streaming_engine_contract (frags : List String) :
    parse_files_from_response (feedAll initStream frags).1.accumulated
      = parse_files_from_response
          (feedAll initStream [strConcat frags]).1.accumulated
    ∧ (((feedAll initStream frags).2
        ++ (finalPassEmit (feedAll initStream frags).1).2).map Prod.fst).Nodup := by
  constructor
  · rw [feedAll_accumulated frags initStream,
      feedAll_accumulated [strConcat frags] initStream]
    have hsingle : strConcat [strConcat frags] = strConcat frags := by
      show "" ++ strConcat frags = strConcat frags
      exact strEmpty_append _
    rw [hsingle]
  · obtain ⟨hshape, hfresh, hnodup⟩ := feedAll_emits frags initStream
    obtain ⟨hs2, hf2, hn2⟩ :=
      scanEmit_spec
        ((parse_files_from_response
            (feedAll initStream frags).1.accumulated).map
          (fun f => (f.path, f.content)))
        (feedAll initStream frags).1.emittedPaths
    rw [List.map_append]
    refine List.Nodup.append hnodup hn2 ?_
    intro p hp1 hp2
    apply hf2 p hp2
    rw [hshape]
    apply List.mem_append_left
    exact List.mem_reverse.2 hp1

end VoxCode
